import Mathlib

/-!
Verification of the subscription/credit reconciliation logic of the
Auto-Analyst frontend: the Stripe webhook handler
(`app/api/webhooks/route.ts`), the setup-intent endpoint with promotion-code
validation (`app/api/checkout-sessions/route.ts`) and the subscription
finalization endpoint (`app/api/create-subscription/route.ts`).

The key-value store (Upstash Redis) is modelled as two finite maps: plain
string keys (the customer index) and hash keys (subscription / credit
records).  A hash is an association list of field/value pairs; `hset` merges
fields into the existing hash (creating it when absent), `del` removes the
key.  Key layout follows the Redis schema document of the repository:
`user:{userId}:subscription`, `user:{userId}:credits`, and
`stripe:customer:{customerId}` for the customer index.
-/

/-- A stored hash: association list from field names to string values. -/
abbrev Hmap := List (String × String)

/-- Field lookup in a hash (first binding wins, mirroring a map). -/
def getF : Hmap → String → Option String
  | [], _ => none
  | (k', v) :: rest, k => if k = k' then some v else getF rest k

/-- Set one field: replace the first binding of `k`, or append it. -/
def setField : Hmap → String → String → Hmap
  | [], k, v => [(k, v)]
  | (k', v') :: rest, k, v =>
    if k' = k then (k, v) :: rest else (k', v') :: setField rest k v

/-- Model of `HSET` with several fields: fields are applied left to right, so a later
pair with the same field name overwrites an earlier one. -/
def hsetFields (h : Hmap) (upd : List (String × String)) : Hmap :=
  upd.foldl (fun a p => setField a p.1 p.2) h

/-- The value the last binding of `k` in `upd` would give (later pairs win),
used to describe the result of `hsetFields`. -/
def lookupLast : List (String × String) → String → Option String
  | [], _ => none
  | (k', v') :: rest, k =>
    match lookupLast rest k with
    | some v => some v
    | none => if k = k' then some v' else none

theorem getF_setField (h : Hmap) (k v k' : String) :
    getF (setField h k v) k' = if k' = k then some v else getF h k' := by
  induction h with
  | nil => simp [setField, getF]
  | cons p rest ih =>
    obtain ⟨k₁, v₁⟩ := p
    by_cases h1 : k₁ = k
    · subst h1
      by_cases h2 : k' = k₁ <;> simp [setField, getF, h2]
    · by_cases h2 : k' = k₁
      · subst h2
        simp [setField, getF, h1, Ne.symm h1]
      · simp [setField, getF, h1, h2, ih]

theorem getF_hsetFields (upd : List (String × String)) (h : Hmap) (k : String) :
    getF (hsetFields h upd) k =
      match lookupLast upd k with
      | some v => some v
      | none => getF h k := by
  induction upd generalizing h with
  | nil => simp [hsetFields, lookupLast]
  | cons p rest ih =>
    obtain ⟨k₁, v₁⟩ := p
    show getF (hsetFields (setField h k₁ v₁) rest) k = _
    rw [ih]
    cases hrest : lookupLast rest k with
    | some v => simp [lookupLast, hrest]
    | none =>
      by_cases hk : k = k₁
      · subst hk
        simp [lookupLast, hrest, getF_setField]
      · simp [lookupLast, hrest, getF_setField, hk]

theorem setField_self (h : Hmap) (k v : String) (hv : getF h k = some v) :
    setField h k v = h := by
  induction h with
  | nil => simp [getF] at hv
  | cons p rest ih =>
    obtain ⟨k₁, v₁⟩ := p
    by_cases hk : k = k₁
    · subst hk
      simp [getF] at hv
      simp [setField, hv]
    · simp [getF, hk] at hv
      simp [setField, Ne.symm hk, ih hv]

theorem hsetFields_self (upd : List (String × String)) (h : Hmap)
    (H : ∀ p ∈ upd, getF h p.1 = some p.2) : hsetFields h upd = h := by
  induction upd with
  | nil => rfl
  | cons p rest ih =>
    obtain ⟨k₁, v₁⟩ := p
    have h1 : getF h k₁ = some v₁ := H (k₁, v₁) (by simp)
    show hsetFields (setField h k₁ v₁) rest = h
    rw [setField_self h k₁ v₁ h1]
    exact ih (fun q hq => H q (by simp [hq]))

/-- The persisted state: plain string keys (`kv`, holding the customer
index) and hash keys (`hashes`, holding subscription and credit records).
`none` means the key does not exist; `HGETALL` of a missing key yields
`null` in the Upstash client, which the handlers test for. -/
@[ext] structure Store where
  kv : String → Option String
  hashes : String → Option Hmap

def Store.hset (s : Store) (key : String) (upd : List (String × String)) : Store :=
  { s with
    hashes := fun k =>
      if k = key then some (hsetFields ((s.hashes key).getD []) upd) else s.hashes k }

def Store.del (s : Store) (key : String) : Store :=
  { s with hashes := fun k => if k = key then none else s.hashes k }

/-- Read one field of a stored hash (missing key or field gives `none`). -/
def getField (s : Store) (key field : String) : Option String :=
  match s.hashes key with
  | some h => getF h field
  | none => none

/-- Key of the subscription record of a user (`KEYS.USER_SUBSCRIPTION`). -/
def subKey (userId : String) : String := "user:" ++ userId ++ ":subscription"

/-- Key of the credit record of a user (`KEYS.USER_CREDITS`). -/
def creditsKey (userId : String) : String := "user:" ++ userId ++ ":credits"

/-- Customer-index key mapping a Stripe customer id to a user id. -/
def custKey (customerId : String) : String := "stripe:customer:" ++ customerId

theorem subKey_ne_creditsKey (userId : String) : subKey userId ≠ creditsKey userId := by
  intro hEq
  have hd := congrArg String.data hEq
  simp only [subKey, creditsKey, String.data_append] at hd
  have h2 := List.append_cancel_left hd
  exact absurd h2 (by decide)

theorem hset_hashes_same (s : Store) (key : String) (upd : List (String × String)) :
    (s.hset key upd).hashes key = some (hsetFields ((s.hashes key).getD []) upd) := by
  simp [Store.hset]

theorem hset_hashes_other (s : Store) (key k : String) (upd : List (String × String))
    (hne : k ≠ key) : (s.hset key upd).hashes k = s.hashes k := by
  simp [Store.hset, hne]

theorem getField_hset_same (s : Store) (key : String) (upd : List (String × String))
    (f : String) :
    getField (s.hset key upd) key f =
      match lookupLast upd f with
      | some v => some v
      | none => getField s key f := by
  unfold getField
  rw [hset_hashes_same]
  show getF (hsetFields ((s.hashes key).getD []) upd) f = _
  rw [getF_hsetFields]
  cases hl : lookupLast upd f with
  | some v => simp
  | none =>
    cases hs : s.hashes key with
    | some h => simp [hs]
    | none => simp [hs, getF]

theorem getField_hset_other (s : Store) (key key' : String)
    (upd : List (String × String)) (f : String) (hne : key' ≠ key) :
    getField (s.hset key upd) key' f = getField s key' f := by
  unfold getField
  rw [hset_hashes_other s key key' upd hne]

/-!
## Webhook handler model (`app/api/webhooks/route.ts`)

Events are a discriminated union over the event types the `switch` in `POST`
recognizes.  A missing/absent payload field is modelled as the empty string,
matching the JavaScript falsiness tests (`if (!customerId)`,
`if (invoice.subscription)`, `metadata?.userId`).  Time is abstracted as the
`now` parameter: every `new Date().toISOString()` in one request evaluates to
the same instant for our purposes.
-/

inductive StripeEvent where
  | checkoutCompleted (sessionId : String)
  | subscriptionUpdated (subId customer status : String)
  | subscriptionDeleted (subId customer : String)
  | trialWillEnd (subId customer : String)
  | invoicePaymentSucceeded (invoiceId subscription billingReason : String)
  | invoicePaymentFailed (invoiceId subscription billingReason : String)
  | paymentIntentFailed (piId customer metaIsTrial metaUserId : String)
  | paymentIntentCanceled (piId customer metaIsTrial metaUserId : String)
  | setupIntentFailed (siId metaIsTrialSetup metaSubscriptionId : String)
  | paymentIntentRequiresAction (piId customer metaIsTrial metaUserId : String)
  | otherEvent (eventType : String)
deriving DecidableEq

/-- A subscription object as returned by `stripe.subscriptions.retrieve`. -/
structure StripeSub where
  customer : String
  status : String
deriving DecidableEq

/-- The Stripe side used by the webhook handlers: `subscriptions.retrieve`;
`none` means the retrieval would throw. -/
structure StripeEnv where
  subscriptions : String → Option StripeSub

/-- One key-value store call, recorded in order of execution. -/
inductive StoreOp where
  | get (key : String)
  | hgetall (key : String)
  | hset (key : String)
  | del (key : String)
deriving DecidableEq

/-- Response of the webhook route: HTTP status and whether the body is the
success acknowledgement `{received:true}`. -/
structure WebhookResponse where
  status : Nat
  received : Bool
deriving DecidableEq

structure HandlerOut where
  resp : WebhookResponse
  store : Store
  ops : List StoreOp

/-- Modelled from the spec: `creditUtils.setZeroCredits` lives in
`lib/redis`, which is not part of the sources; per the Credit Ledger
contract, "`zero(userId)` sets `total=0`, `used=0`, clears `resetDate`,
stamps `lastUpdate`". -/
def setZeroCredits (now userId : String) (s : Store) : Store :=
  s.hset (creditsKey userId)
    [("total", "0"), ("used", "0"), ("resetDate", ""), ("lastUpdate", now)]

/-- The `switch (event.type)` dispatch of the webhook `POST`, entered after
signature verification has succeeded.  Each branch reproduces the redis
reads/writes and the returned response of the corresponding `case`. -/
def handleEvent (env : StripeEnv) (now : String) (e : StripeEvent) (s : Store) :
    HandlerOut :=
  match e with
  | .checkoutCompleted _ => ⟨⟨200, true⟩, s, []⟩
  | .subscriptionUpdated _ customer status =>
    if customer = "" then ⟨⟨400, false⟩, s, []⟩
    else
      match s.kv (custKey customer) with
      | none => ⟨⟨200, true⟩, s, [.get (custKey customer)]⟩
      | some userId =>
        let currentStatus :=
          match s.hashes (subKey userId) with
          | some h => getF h "status"
          | none => none
        let upd :=
          [("status", status), ("lastUpdated", now),
           ("stripeSubscriptionStatus", status)]
          ++ (if currentStatus = some "trialing" ∧ status = "active" then
                [("trialEndedAt", now), ("trialToActiveDate", now)] else [])
          ++ (if status = "canceled" then [("canceledAt", now)] else [])
          ++ (if status = "unpaid" ∨ status = "past_due" then
                [("unpaidAt", now)] else [])
        ⟨⟨200, true⟩, s.hset (subKey userId) upd,
         [.get (custKey customer), .hgetall (subKey userId), .hset (subKey userId)]⟩
  | .subscriptionDeleted _ customer =>
    if customer = "" then ⟨⟨400, false⟩, s, []⟩
    else
      match s.kv (custKey customer) with
      | none => ⟨⟨200, true⟩, s, [.get (custKey customer)]⟩
      | some userId =>
        match s.hashes (subKey userId) with
        | none => ⟨⟨200, true⟩, s, [.get (custKey customer), .hgetall (subKey userId)]⟩
        | some _ =>
          let s1 := setZeroCredits now userId s
          let s2 := s1.hset (subKey userId)
            [("plan", "No Active Plan"), ("planType", "NONE"), ("status", "canceled"),
             ("amount", "0"), ("interval", "month"), ("lastUpdated", now),
             ("canceledAt", now), ("stripeCustomerId", ""), ("stripeSubscriptionId", "")]
          let s3 := s2.hset (creditsKey userId)
            [("total", "0"), ("used", "0"), ("resetDate", ""), ("lastUpdate", now),
             ("subscriptionDeleted", "true")]
          ⟨⟨200, true⟩, s3,
           [.get (custKey customer), .hgetall (subKey userId),
            .hset (creditsKey userId), .hset (subKey userId), .hset (creditsKey userId)]⟩
  | .trialWillEnd _ customer =>
    if customer = "" then ⟨⟨400, false⟩, s, []⟩
    else
      match s.kv (custKey customer) with
      | none => ⟨⟨200, true⟩, s, [.get (custKey customer)]⟩
      | some _ => ⟨⟨200, true⟩, s, [.get (custKey customer)]⟩
  | .invoicePaymentSucceeded _ subscription billingReason =>
    if subscription = "" then ⟨⟨200, true⟩, s, []⟩
    else
      match env.subscriptions subscription with
      | none => ⟨⟨500, false⟩, s, []⟩
      | some sub =>
        match s.kv (custKey sub.customer) with
        | none => ⟨⟨200, true⟩, s, [.get (custKey sub.customer)]⟩
        | some userId =>
          let upd :=
            if billingReason = "subscription_cycle" then
              [("status", "active"), ("lastUpdated", now), ("trialEndedAt", now),
               ("lastPaymentDate", now), ("stripeSubscriptionStatus", sub.status)]
            else if billingReason = "subscription_create" then
              [("status", sub.status), ("lastUpdated", now),
               ("initialPaymentDate", now), ("stripeSubscriptionStatus", sub.status)]
            else
              [("status", sub.status), ("lastUpdated", now),
               ("lastPaymentDate", now), ("stripeSubscriptionStatus", sub.status)]
          ⟨⟨200, true⟩, s.hset (subKey userId) upd,
           [.get (custKey sub.customer), .hgetall (subKey userId), .hset (subKey userId)]⟩
  | .invoicePaymentFailed _ subscription billingReason =>
    if subscription ≠ "" ∧ billingReason = "subscription_cycle" then
      match env.subscriptions subscription with
      | none => ⟨⟨500, false⟩, s, []⟩
      | some sub =>
        match s.kv (custKey sub.customer) with
        | none => ⟨⟨200, true⟩, s, [.get (custKey sub.customer)]⟩
        | some userId =>
          let s1 := setZeroCredits now userId s
          let s2 := s1.hset (subKey userId)
            [("status", "past_due"), ("lastUpdated", now), ("paymentFailedAt", now)]
          ⟨⟨200, true⟩, s2,
           [.get (custKey sub.customer), .hset (creditsKey userId), .hset (subKey userId)]⟩
    else ⟨⟨200, true⟩, s, []⟩
  | .paymentIntentFailed _ _ metaIsTrial metaUserId =>
    if metaIsTrial = "true" ∧ metaUserId ≠ "" then
      let s1 := setZeroCredits now metaUserId s
      let s2 := s1.hset (subKey metaUserId)
        [("status", "payment_failed"), ("lastUpdated", now), ("paymentFailedAt", now),
         ("failureReason", "Payment authorization failed during trial signup")]
      ⟨⟨200, true⟩, s2, [.hset (creditsKey metaUserId), .hset (subKey metaUserId)]⟩
    else ⟨⟨200, true⟩, s, []⟩
  | .paymentIntentCanceled _ _ metaIsTrial metaUserId =>
    if metaIsTrial = "true" ∧ metaUserId ≠ "" then
      let s1 := setZeroCredits now metaUserId s
      let s2 := s1.hset (subKey metaUserId)
        [("status", "canceled"), ("lastUpdated", now), ("canceledAt", now),
         ("cancelReason", "Payment intent canceled during trial signup")]
      ⟨⟨200, true⟩, s2, [.hset (creditsKey metaUserId), .hset (subKey metaUserId)]⟩
    else ⟨⟨200, true⟩, s, []⟩
  | .setupIntentFailed _ metaIsTrialSetup metaSubscriptionId =>
    if metaIsTrialSetup = "true" ∧ metaSubscriptionId ≠ "" then
      match env.subscriptions metaSubscriptionId with
      | none => ⟨⟨200, true⟩, s, []⟩
      | some sub =>
        match s.kv (custKey sub.customer) with
        | none => ⟨⟨200, true⟩, s, [.get (custKey sub.customer)]⟩
        | some userId =>
          let s1 := setZeroCredits now userId s
          let s2 := s1.hset (subKey userId)
            [("status", "setup_failed"), ("lastUpdated", now), ("setupFailedAt", now),
             ("failureReason", "Payment method setup failed during trial signup")]
          ⟨⟨200, true⟩, s2,
           [.get (custKey sub.customer), .hset (creditsKey userId), .hset (subKey userId)]⟩
    else ⟨⟨200, true⟩, s, []⟩
  | .paymentIntentRequiresAction _ _ _ _ => ⟨⟨200, true⟩, s, []⟩
  | .otherEvent _ => ⟨⟨200, true⟩, s, []⟩

/-- Environment checks performed before dispatch. -/
structure WebhookConfig where
  stripeConfigured : Bool
  webhookSecret : String

/-- The webhook `POST` entry: configuration checks, signature header check,
and signature verification on the raw body (abstracted as the `verify`
function: `some event` on success, `none` when `constructEvent` throws).
Only after successful verification is the event dispatched. -/
def webhookPOST (cfg : WebhookConfig)
    (verify : String → String → String → Option StripeEvent)
    (env : StripeEnv) (now : String)
    (signature : Option String) (rawBody : String) (s : Store) : HandlerOut :=
  if cfg.stripeConfigured = false then ⟨⟨500, false⟩, s, []⟩
  else if cfg.webhookSecret = "" then ⟨⟨500, false⟩, s, []⟩
  else
    match signature with
    | none => ⟨⟨400, false⟩, s, []⟩
    | some sig =>
      match verify rawBody sig cfg.webhookSecret with
      | none => ⟨⟨400, false⟩, s, []⟩
      | some e => handleEvent env now e s

/-!
## Shared concrete fixtures for witnesses and counterexamples
-/

/-- A Stripe side with no retrievable subscriptions. -/
def noSubs : StripeEnv := ⟨fun _ => none⟩

/-- The empty store. -/
def emptyStore : Store := ⟨fun _ => none, fun _ => none⟩

/-- Store in which `cus_1` is mapped to `user_42`, `user_42` has a nonzero
credit record but no subscription record. -/
def storeNoSubRecord : Store :=
  { kv := fun k => if k = custKey "cus_1" then some "user_42" else none,
    hashes := fun k =>
      if k = creditsKey "user_42" then
        some [("total", "100"), ("used", "3"), ("resetDate", "2025-11-01")]
      else none }

/-!
## C1 — cancellation zeroes credits and resets the subscription record
-/

/-- C1 counterexample: a verified `customer.subscription.deleted` event for
the mapped customer `cus_1` → `user_42`, where `user_42` has a credit record
but no subscription record.  The handler takes the `!subscriptionData` early
return, acknowledges the event, and leaves the credit record at
`total="100"`, contradicting the claim that the credit record ends at
`total="0"` regardless of the prior contents of either record. -/
theorem c1_counterexample :
    (handleEvent noSubs "2025-10-11T00:00:00Z"
        (.subscriptionDeleted "sub_1" "cus_1") storeNoSubRecord).resp.received = true
    ∧ getField (handleEvent noSubs "2025-10-11T00:00:00Z"
        (.subscriptionDeleted "sub_1" "cus_1") storeNoSubRecord).store
        (creditsKey "user_42") "total" = some "100" := by
  constructor <;> decide

/-- C1 (amended): for every verified `customer.subscription.deleted` event
whose customer id is mapped in the customer index to a user **and for whom a
subscription record exists**, after the handler completes the credit
record has `total="0"`, `used="0"`, `resetDate=""`, and the subscription
record has `planType="NONE"`, `status="canceled"`, `amount="0"` and empty
Stripe ids, regardless of the prior contents of either record; the event is
acknowledged with `{received:true}`. -/
theorem c1_deleted_zeroes_credits (env : StripeEnv)
    (now subId customer userId : String) (h : Hmap) (s : Store)
    (hc : customer ≠ "")
    (hmap : s.kv (custKey customer) = some userId)
    (hsub : s.hashes (subKey userId) = some h) :
    getField (handleEvent env now (.subscriptionDeleted subId customer) s).store
        (creditsKey userId) "total" = some "0"
    ∧ getField (handleEvent env now (.subscriptionDeleted subId customer) s).store
        (creditsKey userId) "used" = some "0"
    ∧ getField (handleEvent env now (.subscriptionDeleted subId customer) s).store
        (creditsKey userId) "resetDate" = some ""
    ∧ getField (handleEvent env now (.subscriptionDeleted subId customer) s).store
        (subKey userId) "planType" = some "NONE"
    ∧ getField (handleEvent env now (.subscriptionDeleted subId customer) s).store
        (subKey userId) "status" = some "canceled"
    ∧ getField (handleEvent env now (.subscriptionDeleted subId customer) s).store
        (subKey userId) "amount" = some "0"
    ∧ getField (handleEvent env now (.subscriptionDeleted subId customer) s).store
        (subKey userId) "stripeCustomerId" = some ""
    ∧ getField (handleEvent env now (.subscriptionDeleted subId customer) s).store
        (subKey userId) "stripeSubscriptionId" = some ""
    ∧ (handleEvent env now (.subscriptionDeleted subId customer) s).resp = ⟨200, true⟩ := by
  have hca : creditsKey userId ≠ subKey userId := (subKey_ne_creditsKey userId).symm
  have hsa : subKey userId ≠ creditsKey userId := subKey_ne_creditsKey userId
  simp only [handleEvent, hc, if_neg, hmap, hsub, setZeroCredits]
  refine ⟨?_, ?_, ?_, ?_, ?_, ?_, ?_, ?_, rfl⟩ <;>
    simp [getField_hset_same, getField_hset_other, hca, hsa, lookupLast]

/-- Witness for `c1_deleted_zeroes_credits` at a concrete store. -/
def storeWithSubRecord : Store :=
  { kv := fun k => if k = custKey "cus_1" then some "user_42" else none,
    hashes := fun k =>
      if k = creditsKey "user_42" then
        some [("total", "100"), ("used", "3"), ("resetDate", "2025-11-01")]
      else if k = subKey "user_42" then
        some [("planType", "STANDARD"), ("status", "active"), ("amount", "15")]
      else none }

theorem c1_deleted_zeroes_credits_witness :
    ("cus_1" : String) ≠ ""
    ∧ storeWithSubRecord.kv (custKey "cus_1") = some "user_42"
    ∧ storeWithSubRecord.hashes (subKey "user_42") =
        some [("planType", "STANDARD"), ("status", "active"), ("amount", "15")]
    ∧ getField (handleEvent noSubs "2025-10-11T00:00:00Z"
        (.subscriptionDeleted "sub_1" "cus_1") storeWithSubRecord).store
        (creditsKey "user_42") "total" = some "0" :=
  ⟨by decide, by decide, by decide,
   (c1_deleted_zeroes_credits noSubs "2025-10-11T00:00:00Z" "sub_1" "cus_1" "user_42"
      [("planType", "STANDARD"), ("status", "active"), ("amount", "15")]
      storeWithSubRecord (by decide) (by decide) (by decide)).1⟩

/-!
## C2 — failed signature verification: 400 and no store operation
-/

/-- C2: for every incoming webhook request whose signature verification
fails — the `stripe-signature` header is missing, or `constructEvent` throws
on the raw body — the endpoint answers 400 with an error body and performs
no key-value store operation at all: the returned store is the input store
and the operation trace is empty. -/
theorem c2_bad_signature_rejected (cfg : WebhookConfig)
    (verify : String → String → String → Option StripeEvent)
    (env : StripeEnv) (now rawBody : String) (signature : Option String) (s : Store)
    (hcfg : cfg.stripeConfigured = true) (hsec : cfg.webhookSecret ≠ "")
    (hbad : ∀ sig, signature = some sig → verify rawBody sig cfg.webhookSecret = none) :
    webhookPOST cfg verify env now signature rawBody s = ⟨⟨400, false⟩, s, []⟩ := by
  unfold webhookPOST
  rw [hcfg]
  cases signature with
  | none => simp [hsec]
  | some sig => simp [hsec, hbad sig rfl]

theorem c2_bad_signature_rejected_witness :
    webhookPOST ⟨true, "whsec_1"⟩ (fun _ _ _ => none) noSubs "2025-10-11T00:00:00Z"
        (some "t=1,v1=deadbeef") "rawbody" emptyStore = ⟨⟨400, false⟩, emptyStore, []⟩ :=
  c2_bad_signature_rejected ⟨true, "whsec_1"⟩ (fun _ _ _ => none) noSubs
    "2025-10-11T00:00:00Z" "rawbody" (some "t=1,v1=deadbeef") emptyStore
    rfl (by decide) (fun _ _ => rfl)

/-!
## C3 — idempotence of `customer.subscription.updated`
-/

theorem hset_kv (s : Store) (key : String) (upd : List (String × String)) :
    (s.hset key upd).kv = s.kv := rfl

theorem hset_hset_self (s : Store) (key : String) (u₁ u₂ : List (String × String))
    (H : ∀ p ∈ u₂, getF (hsetFields ((s.hashes key).getD []) u₁) p.1 = some p.2) :
    (s.hset key u₁).hset key u₂ = s.hset key u₁ := by
  apply Store.ext
  · rfl
  · funext k
    by_cases hkk : k = key
    · subst hkk
      rw [hset_hashes_same, hset_hashes_same]
      simp only [Option.getD_some]
      rw [hsetFields_self _ _ H]
    · simp [Store.hset, hkk]

/-- C3: applying the same verified `customer.subscription.updated` event
twice (same payload, same resolved user, time abstracted to the same
instant) leaves the stored state after the second application identical to
the state after the first: the second write only re-asserts field values the
first one already stored (the `trialing → active` stamp cannot fire again
because the stored status is already the status carried by the event). -/
theorem c3_updated_idempotent (env : StripeEnv)
    (now subId customer status : String) (s : Store) :
    (handleEvent env now (.subscriptionUpdated subId customer status)
        (handleEvent env now (.subscriptionUpdated subId customer status) s).store).store
    = (handleEvent env now (.subscriptionUpdated subId customer status) s).store := by
  by_cases hc : customer = ""
  · simp [handleEvent, hc]
  · cases hk : s.kv (custKey customer) with
    | none => simp [handleEvent, hc, hk]
    | some uid =>
      have hNTA : ¬(status = "trialing" ∧ status = "active") := by
        rintro ⟨ha, hb⟩
        rw [ha] at hb
        exact absurd hb (by decide)
      by_cases h1 : (match s.hashes (subKey uid) with
          | some h => getF h "status"
          | none => none) = some "trialing" ∧ status = "active"
      all_goals by_cases h2 : status = "canceled"
      all_goals by_cases h3 : status = "unpaid" ∨ status = "past_due"
      all_goals
        simp only [handleEvent, hc, if_neg, hk, hset_kv, hset_hashes_same,
          Option.getD_some, getF_hsetFields, h1, h2, h3, if_pos, if_true, if_false,
          eq_self_iff_true, not_false_iff]
      all_goals
        simp only [List.cons_append, List.nil_append, List.append_nil, lookupLast,
          if_true, if_false]
      all_goals simp [hNTA, lookupLast]
      all_goals
        apply hset_hset_self
        intro p hp
        rw [getF_hsetFields]
        fin_cases hp <;> simp [lookupLast]

/-!
## C4 — acknowledgement of recognized and unrecognized events
-/

/-- C4 counterexample: a signature-verified `customer.subscription.updated`
event whose payload carries no customer id is answered with status 400 and
an error body, not with `{received:true}` — so a recognized-event branch can
return a non-success status after verification succeeded. -/
theorem c4_counterexample :
    (webhookPOST ⟨true, "whsec_1"⟩
        (fun _ _ _ => some (.subscriptionUpdated "sub_1" "" "active"))
        noSubs "2025-10-11T00:00:00Z" (some "t=1,v1=deadbeef") "rawbody"
        emptyStore).resp = ⟨400, false⟩ := by
  decide

/-- Well-formedness of a verified event with respect to the branches that can
answer with a non-success status: subscription/trial events must carry a
customer id, and invoice events that retrieve their subscription must find it
on the Stripe side (otherwise `stripe.subscriptions.retrieve` throws and the
outer catch answers 500). -/
def eventOk (env : StripeEnv) (e : StripeEvent) : Bool :=
  match e with
  | .subscriptionUpdated _ c _ => c != ""
  | .subscriptionDeleted _ c => c != ""
  | .trialWillEnd _ c => c != ""
  | .invoicePaymentSucceeded _ sub _ => sub == "" || (env.subscriptions sub).isSome
  | .invoicePaymentFailed _ sub reason =>
      !(sub != "" && reason == "subscription_cycle") || (env.subscriptions sub).isSome
  | _ => true

/-- C4 (amended): once signature verification has passed, every event of a
recognized type that carries the customer id its branch requires and whose
Stripe-side subscription retrievals succeed — and every event of an
unrecognized type — is answered with status 200 and the success body
`{received:true}`; recognized subscription/trial events with an empty
customer id answer 400, and invoice events whose subscription retrieval
throws answer 500. -/
theorem c4_acknowledges_events (env : StripeEnv) (now : String) (e : StripeEvent)
    (s : Store) (hok : eventOk env e = true) :
    (handleEvent env now e s).resp = ⟨200, true⟩ := by
  cases e with
  | checkoutCompleted _ => rfl
  | subscriptionUpdated _ c st =>
    simp only [eventOk, bne_iff_ne, ne_eq] at hok
    cases hk : s.kv (custKey c) <;> simp [handleEvent, hok, hk]
  | subscriptionDeleted _ c =>
    simp only [eventOk, bne_iff_ne, ne_eq] at hok
    cases hk : s.kv (custKey c) with
    | none => simp [handleEvent, hok, hk]
    | some uid =>
      cases hh : s.hashes (subKey uid) <;> simp [handleEvent, hok, hk, hh]
  | trialWillEnd _ c =>
    simp only [eventOk, bne_iff_ne, ne_eq] at hok
    cases hk : s.kv (custKey c) <;> simp [handleEvent, hok, hk]
  | invoicePaymentSucceeded _ sub reason =>
    by_cases hs : sub = ""
    · simp [handleEvent, hs]
    · have hok2 : (env.subscriptions sub).isSome = true := by
        simp only [eventOk] at hok
        rcases Bool.or_eq_true _ _ |>.mp hok with h | h
        · exact absurd (beq_iff_eq.mp h) hs
        · exact h
      cases henv : env.subscriptions sub with
      | none => rw [henv] at hok2; exact absurd hok2 (by decide)
      | some sobj =>
        cases hkv : s.kv (custKey sobj.customer) <;>
          simp [handleEvent, hs, henv, hkv]
  | invoicePaymentFailed _ sub reason =>
    by_cases hcond : sub ≠ "" ∧ reason = "subscription_cycle"
    · have hsome : (env.subscriptions sub).isSome = true := by
        simp only [eventOk] at hok
        rcases Bool.or_eq_true _ _ |>.mp hok with h | h
        · exfalso
          simp only [Bool.not_eq_true', Bool.and_eq_false_iff] at h
          rcases h with h | h
          · simp only [bne_eq_false_iff_eq] at h; exact hcond.1 h
          · simp only [beq_eq_false_iff_ne, ne_eq] at h; exact h hcond.2
        · exact h
      cases henv : env.subscriptions sub with
      | none => rw [henv] at hsome; exact absurd hsome (by decide)
      | some sobj =>
        cases hkv : s.kv (custKey sobj.customer) <;>
          simp [handleEvent, hcond, henv, hkv]
    · simp [handleEvent, hcond]
  | paymentIntentFailed _ _ t u =>
    by_cases hcond : t = "true" ∧ u ≠ "" <;> simp [handleEvent, hcond]
  | paymentIntentCanceled _ _ t u =>
    by_cases hcond : t = "true" ∧ u ≠ "" <;> simp [handleEvent, hcond]
  | setupIntentFailed _ t sid =>
    by_cases hcond : t = "true" ∧ sid ≠ ""
    · cases henv : env.subscriptions sid with
      | none => simp [handleEvent, hcond, henv]
      | some sobj =>
        cases hkv : s.kv (custKey sobj.customer) <;>
          simp [handleEvent, hcond, henv, hkv]
    · simp [handleEvent, hcond]
  | paymentIntentRequiresAction _ _ _ _ => rfl
  | otherEvent _ => rfl

theorem c4_acknowledges_events_witness :
    eventOk noSubs (.otherEvent "invoice.finalized") = true
    ∧ (handleEvent noSubs "2025-10-11T00:00:00Z" (.otherEvent "invoice.finalized")
        emptyStore).resp = ⟨200, true⟩ :=
  ⟨by decide, c4_acknowledges_events noSubs "2025-10-11T00:00:00Z"
    (.otherEvent "invoice.finalized") emptyStore (by decide)⟩

/-!
## C5 — unmapped customer ids
-/

/-- C5 counterexample: a verified `payment_intent.payment_failed` event that
carries the customer id `cus_1` with no entry in the customer index, but
whose metadata marks a trial flow with `userId = u1`.  The handler resolves
the user from the metadata instead of the customer index and mutates the
subscription record, refuting "no mutation of any subscription or credit
record". -/
theorem c5_counterexample :
    emptyStore.kv (custKey "cus_1") = none
    ∧ getField emptyStore (subKey "u1") "status" = none
    ∧ (handleEvent noSubs "2025-10-11T00:00:00Z"
        (.paymentIntentFailed "pi_1" "cus_1" "true" "u1") emptyStore).resp.received = true
    ∧ getField (handleEvent noSubs "2025-10-11T00:00:00Z"
        (.paymentIntentFailed "pi_1" "cus_1" "true" "u1") emptyStore).store
        (subKey "u1") "status" = some "payment_failed" := by
  refine ⟨rfl, rfl, rfl, ?_⟩
  decide

/-- The customer id a handler branch will look up in the customer index
(`redis.get("stripe:customer:" + id)`), when it resolves the user that way:
subscription/trial events read it off the payload, invoice and setup-intent
events read it off the retrieved Stripe subscription.  `none` for branches
that do not consult the index (checkout, payment-intent and unrecognized
events, or branches whose guards skip the lookup). -/
def resolvedCustomer (env : StripeEnv) (e : StripeEvent) : Option String :=
  match e with
  | .subscriptionUpdated _ c _ => if c = "" then none else some c
  | .subscriptionDeleted _ c => if c = "" then none else some c
  | .trialWillEnd _ c => if c = "" then none else some c
  | .invoicePaymentSucceeded _ sub _ =>
      if sub = "" then none else (env.subscriptions sub).map (·.customer)
  | .invoicePaymentFailed _ sub reason =>
      if sub ≠ "" ∧ reason = "subscription_cycle" then
        (env.subscriptions sub).map (·.customer)
      else none
  | .setupIntentFailed _ t sid =>
      if t = "true" ∧ sid ≠ "" then (env.subscriptions sid).map (·.customer)
      else none
  | _ => none

/-- C5 (amended): for every verified event whose handler resolves the user
through the customer index (subscription updated/deleted, trial-will-end,
invoice and setup-intent events), an unmapped customer id leads to the
success acknowledgement `{received:true}` with the store unchanged and the
single index read as the only store operation; payment-intent events instead
resolve the user from event metadata and can mutate records even when the
customer id carried by the event is unmapped. -/
theorem c5_unmapped_customer_no_mutation (env : StripeEnv) (now : String)
    (e : StripeEvent) (s : Store) (cid : String)
    (hres : resolvedCustomer env e = some cid)
    (hun : s.kv (custKey cid) = none) :
    handleEvent env now e s = ⟨⟨200, true⟩, s, [.get (custKey cid)]⟩ := by
  cases e with
  | checkoutCompleted _ => exact absurd hres (by simp [resolvedCustomer])
  | subscriptionUpdated _ c st =>
    by_cases hc : c = ""
    · rw [resolvedCustomer] at hres; simp [hc] at hres
    · rw [resolvedCustomer] at hres
      simp only [hc, if_neg, if_false] at hres
      cases hres
      simp [handleEvent, hc, hun]
  | subscriptionDeleted _ c =>
    by_cases hc : c = ""
    · rw [resolvedCustomer] at hres; simp [hc] at hres
    · rw [resolvedCustomer] at hres
      simp only [hc, if_neg, if_false] at hres
      cases hres
      simp [handleEvent, hc, hun]
  | trialWillEnd _ c =>
    by_cases hc : c = ""
    · rw [resolvedCustomer] at hres; simp [hc] at hres
    · rw [resolvedCustomer] at hres
      simp only [hc, if_neg, if_false] at hres
      cases hres
      simp [handleEvent, hc, hun]
  | invoicePaymentSucceeded _ sub reason =>
    by_cases hs : sub = ""
    · rw [resolvedCustomer] at hres; simp [hs] at hres
    · rw [resolvedCustomer] at hres
      simp only [hs, if_neg, if_false] at hres
      cases henv : env.subscriptions sub with
      | none => rw [henv] at hres; cases hres
      | some sobj =>
        rw [henv] at hres
        simp at hres
        subst hres
        simp [handleEvent, hs, henv, hun]
  | invoicePaymentFailed _ sub reason =>
    by_cases hcond : sub ≠ "" ∧ reason = "subscription_cycle"
    · rw [resolvedCustomer] at hres
      rw [if_pos hcond] at hres
      cases henv : env.subscriptions sub with
      | none => rw [henv] at hres; simp at hres
      | some sobj =>
        rw [henv] at hres
        simp at hres
        subst hres
        simp [handleEvent, hcond, henv, hun]
    · rw [resolvedCustomer] at hres
      rw [if_neg hcond] at hres
      cases hres
  | paymentIntentFailed _ _ t u => exact absurd hres (by simp [resolvedCustomer])
  | paymentIntentCanceled _ _ t u => exact absurd hres (by simp [resolvedCustomer])
  | setupIntentFailed _ t sid =>
    by_cases hcond : t = "true" ∧ sid ≠ ""
    · rw [resolvedCustomer] at hres
      rw [if_pos hcond] at hres
      cases henv : env.subscriptions sid with
      | none => rw [henv] at hres; simp at hres
      | some sobj =>
        rw [henv] at hres
        simp at hres
        subst hres
        simp [handleEvent, hcond, henv, hun]
    · rw [resolvedCustomer] at hres
      rw [if_neg hcond] at hres
      cases hres
  | paymentIntentRequiresAction _ _ _ _ => exact absurd hres (by simp [resolvedCustomer])
  | otherEvent _ => exact absurd hres (by simp [resolvedCustomer])

theorem c5_unmapped_customer_no_mutation_witness :
    resolvedCustomer noSubs (.subscriptionDeleted "sub_9" "cus_9") = some "cus_9"
    ∧ emptyStore.kv (custKey "cus_9") = none
    ∧ handleEvent noSubs "2025-10-11T00:00:00Z" (.subscriptionDeleted "sub_9" "cus_9")
        emptyStore = ⟨⟨200, true⟩, emptyStore, [.get (custKey "cus_9")]⟩ :=
  ⟨by decide, rfl,
   c5_unmapped_customer_no_mutation noSubs "2025-10-11T00:00:00Z"
     (.subscriptionDeleted "sub_9" "cus_9") emptyStore "cus_9" (by decide) rfl⟩

/-!
## Setup-intent endpoint model (`app/api/checkout-sessions/route.ts`)

Amounts are integer cents (`unit_amount`); percentage discounts are exact
rationals, and `Math.round` is `round : ℚ → ℤ` (both round half toward
positive infinity).  Stripe lookups are an environment of optional maps;
`none` where the code would observe an empty list / a thrown retrieval.
-/

structure PriceObj where
  unit_amount : Option Int
  product : String
  interval : String
deriving DecidableEq

structure ProductObj where
  name : String
deriving DecidableEq

structure AppliesTo where
  products : Option (List String)
  prices : Option (List String)
deriving DecidableEq

structure Coupon where
  amount_off : Option Int
  percent_off : Option ℚ
  applies_to : Option AppliesTo
deriving DecidableEq

structure PromoCode where
  code : String
  coupon : String
  expires_at : Option Int
deriving DecidableEq

/-- The distinct 400 rejections of promotion-code validation, in source
order: no active code found, code expired, coupon retrieval failed,
product restriction, price restriction, empty price list (no price
allowed), and zero computed discount. -/
inductive PromoError where
  | notFound
  | expired
  | couponFetch
  | productRestricted
  | priceRestricted
  | priceNoneAllowed
  | noDiscount
deriving DecidableEq

/-- The computed `discountAmount`: `amount_off` when truthy, else the rounded percentage
of the unit amount when `percent_off` is truthy, else 0. -/
def couponDiscount (price : PriceObj) (c : Coupon) : Int :=
  if (match c.amount_off with | some a => a != 0 | none => false) then
    c.amount_off.getD 0
  else if (match c.percent_off with | some p => p != 0 | none => false) then
    round ((price.unit_amount.getD 0 : ℚ) * (c.percent_off.getD 0) / 100)
  else 0

/-- The check `promotionCodeObj.expires_at && promotionCodeObj.expires_at < now`. -/
def promoExpired (nowSec : Int) (pc : PromoCode) : Bool :=
  match pc.expires_at with
  | some t => (t != 0) && decide (t < nowSec)
  | none => false

/-- Final step of validation: the computed discount must be nonzero. -/
def finishDiscount (price : PriceObj) (pc : PromoCode) (c : Coupon) :
    Except PromoError (String × Int) :=
  let d := couponDiscount price c
  if d = 0 then .error .noDiscount else .ok (pc.code, d)

/-- Price-restriction check: a present nonempty `applies_to.prices` list
must contain the requested price; a present empty list allows no price. -/
def checkPriceR (priceId : String) (price : PriceObj) (pc : PromoCode) (c : Coupon)
    (ap : AppliesTo) : Except PromoError (String × Int) :=
  match ap.prices with
  | some qs =>
    if 0 < qs.length then
      if qs.contains priceId then finishDiscount price pc c
      else .error .priceRestricted
    else .error .priceNoneAllowed
  | none => finishDiscount price pc c

/-- Restriction checks of `coupon.applies_to`: product restriction first
(a present empty `products` list is skipped — "applies to all products"),
then the price restriction, then the discount computation. -/
def checkRestrictions (priceId productId : String) (price : PriceObj)
    (pc : PromoCode) (c : Coupon) : Except PromoError (String × Int) :=
  match c.applies_to with
  | some ap =>
    match ap.products with
    | some ps =>
      if 0 < ps.length then
        if ps.contains productId then checkPriceR priceId price pc c ap
        else .error .productRestricted
      else checkPriceR priceId price pc c ap
    | none => checkPriceR priceId price pc c ap
  | none => finishDiscount price pc c

structure CheckoutEnv where
  promoCodes : String → Option PromoCode
  coupons : String → Option Coupon
  prices : String → Option PriceObj
  customerOk : Bool
  nowSec : Int

/-- The promotion-code validation block: active-code lookup, expiration,
coupon retrieval, restrictions, discount. -/
def validatePromo (env : CheckoutEnv) (priceId productId : String) (price : PriceObj)
    (code : String) : Except PromoError (String × Int) :=
  match env.promoCodes code with
  | none => .error .notFound
  | some pc =>
    if promoExpired env.nowSec pc then .error .expired
    else
      match env.coupons pc.coupon with
      | none => .error .couponFetch
      | some c => checkRestrictions priceId productId price pc c

structure CheckoutOut where
  status : Nat
  setupIntentCreated : Bool
  discountAmount : Int
deriving DecidableEq

/-- The setup-intent `POST`: configuration and required-field checks,
customer create-or-reuse, price retrieval, optional promotion-code
validation, then setup-intent creation. -/
def checkoutPOST (env : CheckoutEnv) (stripeConfigured : Bool)
    (priceId userId promotionCode : String) : CheckoutOut :=
  if stripeConfigured = false then ⟨500, false, 0⟩
  else if priceId = "" then ⟨400, false, 0⟩
  else if userId = "" then ⟨400, false, 0⟩
  else if env.customerOk = false then ⟨500, false, 0⟩
  else
    match env.prices priceId with
    | none => ⟨500, false, 0⟩
    | some price =>
      if promotionCode = "" then ⟨200, true, 0⟩
      else
        match validatePromo env priceId price.product price promotionCode with
        | .error _ => ⟨400, false, 0⟩
        | .ok (_, d) => ⟨200, true, d⟩

/-- The product restriction rejects: `applies_to.products` present,
nonempty, and missing the requested product. -/
def productBlocks (c : Coupon) (productId : String) : Bool :=
  match c.applies_to with
  | some ap =>
    match ap.products with
    | some ps => decide (0 < ps.length) && !(ps.contains productId)
    | none => false
  | none => false

/-- The listed price restriction rejects: `applies_to.prices` present,
nonempty, and missing the requested price. -/
def priceListBlocks (c : Coupon) (priceId : String) : Bool :=
  match c.applies_to with
  | some ap =>
    match ap.prices with
    | some qs => decide (0 < qs.length) && !(qs.contains priceId)
    | none => false
  | none => false

/-- The restriction list `applies_to.prices` is present but empty. -/
def pricesEmptyRestriction (c : Coupon) : Bool :=
  match c.applies_to with
  | some ap =>
    match ap.prices with
    | some qs => qs.isEmpty
    | none => false
  | none => false

theorem if_bool_true {α : Sort _} {b : Bool} (h : b = true) (x y : α) :
    (if b = true then x else y) = x := by rw [h]; simp

theorem if_bool_false {α : Sort _} {b : Bool} (h : b = false) (x y : α) :
    (if b = true then x else y) = y := by rw [h]; simp

/-- Every validation failure surfaces as a 400 response from the endpoint
and no setup intent is created. -/
theorem checkoutPOST_error (env : CheckoutEnv) (priceId userId code : String)
    (price : PriceObj) (e : PromoError)
    (hpid : priceId ≠ "") (huid : userId ≠ "") (hcust : env.customerOk = true)
    (hprice : env.prices priceId = some price) (hcode : code ≠ "")
    (hval : validatePromo env priceId price.product price code = .error e) :
    checkoutPOST env true priceId userId code = ⟨400, false, 0⟩ := by
  unfold checkoutPOST
  have h1 : ¬(true = false) := by simp
  rw [if_neg h1, if_neg hpid, if_neg huid]
  rw [hcust, if_neg h1, hprice]
  simp only []
  rw [if_neg hcode, hval]

/-- C7 — the frozen ordering of promotion-code validation.  Conjuncts follow
the source order: (1) existence/active lookup, (2) expiration, (3) coupon
retrieval, (4) product restriction, (5) listed price restriction, (6) empty
price list, (7) zero computed discount, and (8) every validation error makes
the endpoint answer 400 with no setup intent created.  The conclusion of each
conjunct is fully determined by the first failing check, so no later check
influences the outcome. -/
theorem c7_validation_order (env : CheckoutEnv) (priceId productId userId : String)
    (price : PriceObj) (code : String) :
    (env.promoCodes code = none →
      validatePromo env priceId productId price code = .error .notFound)
    ∧ (∀ pc, env.promoCodes code = some pc → promoExpired env.nowSec pc = true →
      validatePromo env priceId productId price code = .error .expired)
    ∧ (∀ pc, env.promoCodes code = some pc → promoExpired env.nowSec pc = false →
      env.coupons pc.coupon = none →
      validatePromo env priceId productId price code = .error .couponFetch)
    ∧ (∀ pc c ap ps, env.promoCodes code = some pc →
      promoExpired env.nowSec pc = false → env.coupons pc.coupon = some c →
      c.applies_to = some ap → ap.products = some ps → 0 < ps.length →
      ps.contains productId = false →
      validatePromo env priceId productId price code = .error .productRestricted)
    ∧ (∀ pc c ap qs, env.promoCodes code = some pc →
      promoExpired env.nowSec pc = false → env.coupons pc.coupon = some c →
      c.applies_to = some ap → productBlocks c productId = false →
      ap.prices = some qs → 0 < qs.length → qs.contains priceId = false →
      validatePromo env priceId productId price code = .error .priceRestricted)
    ∧ (∀ pc c ap, env.promoCodes code = some pc →
      promoExpired env.nowSec pc = false → env.coupons pc.coupon = some c →
      c.applies_to = some ap → productBlocks c productId = false →
      ap.prices = some [] →
      validatePromo env priceId productId price code = .error .priceNoneAllowed)
    ∧ (∀ pc c, env.promoCodes code = some pc →
      promoExpired env.nowSec pc = false → env.coupons pc.coupon = some c →
      productBlocks c productId = false → priceListBlocks c priceId = false →
      pricesEmptyRestriction c = false → couponDiscount price c = 0 →
      validatePromo env priceId productId price code = .error .noDiscount)
    ∧ (∀ e, priceId ≠ "" → userId ≠ "" → env.customerOk = true →
      env.prices priceId = some price → code ≠ "" →
      validatePromo env priceId price.product price code = .error e →
      checkoutPOST env true priceId userId code = ⟨400, false, 0⟩) := by
  refine ⟨?_, ?_, ?_, ?_, ?_, ?_, ?_, ?_⟩
  · intro hnone
    unfold validatePromo
    rw [hnone]
  · intro pc hfound hexp
    unfold validatePromo
    rw [hfound]
    simp only []
    rw [if_bool_true hexp]
  · intro pc hfound hexp hcoup
    unfold validatePromo
    rw [hfound]
    simp only []
    rw [if_bool_false hexp, hcoup]
  · intro pc c ap ps hfound hexp hcoup hap hps hlen hcont
    unfold validatePromo
    rw [hfound]
    simp only []
    rw [if_bool_false hexp, hcoup]
    simp only []
    unfold checkRestrictions
    rw [hap]
    simp only []
    rw [hps]
    simp only []
    rw [if_pos hlen, if_bool_false hcont]
  · intro pc c ap qs hfound hexp hcoup hap hpb hqs hqlen hqcont
    unfold validatePromo
    rw [hfound]
    simp only []
    rw [if_bool_false hexp, hcoup]
    simp only []
    unfold checkRestrictions
    rw [hap]
    simp only []
    have hgoal : checkPriceR priceId price pc c ap = Except.error .priceRestricted := by
      unfold checkPriceR
      rw [hqs]
      simp only []
      rw [if_pos hqlen, if_bool_false hqcont]
    unfold productBlocks at hpb
    rw [hap] at hpb
    simp only [] at hpb
    cases hps : ap.products with
    | none => simp only []; exact hgoal
    | some ps =>
      rw [hps] at hpb
      simp only [] at hpb
      simp only []
      by_cases hplen : 0 < ps.length
      · rw [if_pos hplen]
        have hcont : ps.contains productId = true := by
          cases hb : ps.contains productId with
          | false => rw [hb] at hpb; simp [hplen] at hpb
          | true => rfl
        rw [if_bool_true hcont]
        exact hgoal
      · rw [if_neg hplen]
        exact hgoal
  · intro pc c ap hfound hexp hcoup hap hpb hqs
    unfold validatePromo
    rw [hfound]
    simp only []
    rw [if_bool_false hexp, hcoup]
    simp only []
    unfold checkRestrictions
    rw [hap]
    simp only []
    have hnl : ¬(0 < ([] : List String).length) := by simp
    have hgoal : checkPriceR priceId price pc c ap = Except.error .priceNoneAllowed := by
      unfold checkPriceR
      rw [hqs]
      simp only []
      rw [if_neg hnl]
    unfold productBlocks at hpb
    rw [hap] at hpb
    simp only [] at hpb
    cases hps : ap.products with
    | none => simp only []; exact hgoal
    | some ps =>
      rw [hps] at hpb
      simp only [] at hpb
      simp only []
      by_cases hplen : 0 < ps.length
      · rw [if_pos hplen]
        have hcont : ps.contains productId = true := by
          cases hb : ps.contains productId with
          | false => rw [hb] at hpb; simp [hplen] at hpb
          | true => rfl
        rw [if_bool_true hcont]
        exact hgoal
      · rw [if_neg hplen]
        exact hgoal
  · intro pc c hfound hexp hcoup hpb hplb hpe hdisc
    unfold validatePromo
    rw [hfound]
    simp only []
    rw [if_bool_false hexp, hcoup]
    simp only []
    have hfin : finishDiscount price pc c = Except.error .noDiscount := by
      unfold finishDiscount
      simp only []
      rw [if_pos hdisc]
    cases hap : c.applies_to with
    | none =>
      unfold checkRestrictions
      rw [hap]
      simp only []
      exact hfin
    | some ap =>
      have hfd : checkPriceR priceId price pc c ap = finishDiscount price pc c := by
        unfold checkPriceR
        unfold pricesEmptyRestriction at hpe
        rw [hap] at hpe
        simp only [] at hpe
        unfold priceListBlocks at hplb
        rw [hap] at hplb
        simp only [] at hplb
        cases hqs : ap.prices with
        | none => simp only []
        | some qs =>
          rw [hqs] at hpe
          simp only [] at hpe
          rw [hqs] at hplb
          simp only [] at hplb
          cases qs with
          | nil => simp at hpe
          | cons q qs' =>
            simp only []
            have hlen : 0 < (q :: qs').length := by simp
            rw [if_pos hlen]
            have hcont : (q :: qs').contains priceId = true := by
              cases hb : (q :: qs').contains priceId with
              | false => rw [hb] at hplb; simp [hlen] at hplb
              | true => rfl
            rw [if_bool_true hcont]
      unfold checkRestrictions
      rw [hap]
      simp only []
      unfold productBlocks at hpb
      rw [hap] at hpb
      simp only [] at hpb
      cases hps : ap.products with
      | none => simp only []; rw [hfd]; exact hfin
      | some ps =>
        rw [hps] at hpb
        simp only [] at hpb
        simp only []
        by_cases hplen : 0 < ps.length
        · rw [if_pos hplen]
          have hcont : ps.contains productId = true := by
            cases hb : ps.contains productId with
            | false => rw [hb] at hpb; simp [hplen] at hpb
            | true => rfl
          rw [if_bool_true hcont, hfd]
          exact hfin
        · rw [if_neg hplen, hfd]
          exact hfin
  · intro e hpid huid hcust hprice hcode hval
    exact checkoutPOST_error env priceId userId code price e hpid huid hcust hprice
      hcode hval

def c7price : PriceObj := ⟨some 1000, "prod_A", "month"⟩

def c7env1 : CheckoutEnv := ⟨fun _ => none, fun _ => none, fun _ => none, true, 100⟩

def c7env2 : CheckoutEnv :=
  ⟨fun co => if co = "SAVE" then some ⟨"SAVE", "coup_A", some 50⟩ else none,
   fun _ => none,
   fun p => if p = "price_A" then some c7price else none, true, 100⟩

def c7env3 : CheckoutEnv :=
  ⟨fun co => if co = "SAVE" then some ⟨"SAVE", "coup_A", none⟩ else none,
   fun _ => none, fun _ => none, true, 100⟩

def c7env4 : CheckoutEnv :=
  ⟨fun co => if co = "SAVE" then some ⟨"SAVE", "coup_A", none⟩ else none,
   fun cp => if cp = "coup_A" then
       some ⟨some 500, none, some ⟨some ["prod_B"], none⟩⟩ else none,
   fun _ => none, true, 100⟩

def c7env5 : CheckoutEnv :=
  ⟨fun co => if co = "SAVE" then some ⟨"SAVE", "coup_A", none⟩ else none,
   fun cp => if cp = "coup_A" then
       some ⟨some 500, none, some ⟨none, some ["price_B"]⟩⟩ else none,
   fun _ => none, true, 100⟩

def c7env6 : CheckoutEnv :=
  ⟨fun co => if co = "SAVE" then some ⟨"SAVE", "coup_A", none⟩ else none,
   fun cp => if cp = "coup_A" then
       some ⟨some 500, none, some ⟨none, some []⟩⟩ else none,
   fun _ => none, true, 100⟩

def c7env7 : CheckoutEnv :=
  ⟨fun co => if co = "SAVE" then some ⟨"SAVE", "coup_A", none⟩ else none,
   fun cp => if cp = "coup_A" then some ⟨none, none, none⟩ else none,
   fun _ => none, true, 100⟩

theorem c7_validation_order_witness :
    validatePromo c7env1 "price_A" "prod_A" c7price "SAVE" = .error .notFound
    ∧ validatePromo c7env2 "price_A" "prod_A" c7price "SAVE" = .error .expired
    ∧ validatePromo c7env3 "price_A" "prod_A" c7price "SAVE" = .error .couponFetch
    ∧ validatePromo c7env4 "price_A" "prod_A" c7price "SAVE" = .error .productRestricted
    ∧ validatePromo c7env5 "price_A" "prod_A" c7price "SAVE" = .error .priceRestricted
    ∧ validatePromo c7env6 "price_A" "prod_A" c7price "SAVE" = .error .priceNoneAllowed
    ∧ validatePromo c7env7 "price_A" "prod_A" c7price "SAVE" = .error .noDiscount
    ∧ checkoutPOST c7env2 true "price_A" "user@example.com" "SAVE" = ⟨400, false, 0⟩ := by
  refine ⟨?_, ?_, ?_, ?_, ?_, ?_, ?_, ?_⟩
  · exact (c7_validation_order c7env1 "price_A" "prod_A" "user@example.com" c7price
      "SAVE").1 rfl
  · exact (c7_validation_order c7env2 "price_A" "prod_A" "user@example.com" c7price
      "SAVE").2.1 ⟨"SAVE", "coup_A", some 50⟩ rfl (by decide)
  · exact (c7_validation_order c7env3 "price_A" "prod_A" "user@example.com" c7price
      "SAVE").2.2.1 ⟨"SAVE", "coup_A", none⟩ rfl (by decide) rfl
  · exact (c7_validation_order c7env4 "price_A" "prod_A" "user@example.com" c7price
      "SAVE").2.2.2.1 ⟨"SAVE", "coup_A", none⟩ ⟨some 500, none, some ⟨some ["prod_B"], none⟩⟩
      ⟨some ["prod_B"], none⟩ ["prod_B"] rfl (by decide) rfl rfl rfl (by decide) (by decide)
  · exact (c7_validation_order c7env5 "price_A" "prod_A" "user@example.com" c7price
      "SAVE").2.2.2.2.1 ⟨"SAVE", "coup_A", none⟩ ⟨some 500, none, some ⟨none, some ["price_B"]⟩⟩
      ⟨none, some ["price_B"]⟩ ["price_B"] rfl (by decide) rfl rfl (by decide) rfl
      (by decide) (by decide)
  · exact (c7_validation_order c7env6 "price_A" "prod_A" "user@example.com" c7price
      "SAVE").2.2.2.2.2.1 ⟨"SAVE", "coup_A", none⟩ ⟨some 500, none, some ⟨none, some []⟩⟩
      ⟨none, some []⟩ rfl (by decide) rfl rfl (by decide) rfl
  · exact (c7_validation_order c7env7 "price_A" "prod_A" "user@example.com" c7price
      "SAVE").2.2.2.2.2.2.1 ⟨"SAVE", "coup_A", none⟩ ⟨none, none, none⟩ rfl (by decide)
      rfl (by decide) (by decide) (by decide) rfl
  · exact (c7_validation_order c7env2 "price_A" "prod_A" "user@example.com" c7price
      "SAVE").2.2.2.2.2.2.2 .expired (by decide) (by decide) rfl rfl (by decide)
      ((c7_validation_order c7env2 "price_A" c7price.product "user@example.com" c7price
        "SAVE").2.1 ⟨"SAVE", "coup_A", some 50⟩ rfl (by decide))

/-!
## C8 — a present but empty `applies_to.prices` list rejects every price
-/

/-- C8: whenever the supplied promotion code resolves (via the active-code
lookup and coupon retrieval) to a coupon whose `applies_to.prices` list is
present but empty, the endpoint answers 400 — whichever 400 check fires
first on the way (expiration, product restriction, or the empty-price-list
check itself) — and no setup intent is created, for every requested price. -/
theorem c8_empty_price_list_rejects (env : CheckoutEnv)
    (priceId userId code : String) (price : PriceObj)
    (pc : PromoCode) (c : Coupon) (ap : AppliesTo)
    (hpid : priceId ≠ "") (huid : userId ≠ "") (hcust : env.customerOk = true)
    (hprice : env.prices priceId = some price) (hcode : code ≠ "")
    (hfound : env.promoCodes code = some pc)
    (hcoup : env.coupons pc.coupon = some c)
    (hap : c.applies_to = some ap) (hqs : ap.prices = some []) :
    checkoutPOST env true priceId userId code = ⟨400, false, 0⟩ := by
  have hnl : ¬(0 < ([] : List String).length) := by simp
  have hcp : checkPriceR priceId price pc c ap = Except.error .priceNoneAllowed := by
    unfold checkPriceR
    rw [hqs]
    simp only []
    rw [if_neg hnl]
  have hval : ∃ e, validatePromo env priceId price.product price code = Except.error e := by
    unfold validatePromo
    rw [hfound]
    simp only []
    cases hexp : promoExpired env.nowSec pc with
    | true => exact ⟨.expired, rfl⟩
    | false =>
      have hff : ¬(false = true) := by simp
      rw [if_neg hff, hcoup]
      simp only []
      unfold checkRestrictions
      rw [hap]
      simp only []
      cases hps : ap.products with
      | none =>
        simp only []
        exact ⟨.priceNoneAllowed, hcp⟩
      | some ps =>
        simp only []
        by_cases hplen : 0 < ps.length
        · rw [if_pos hplen]
          cases hc : ps.contains price.product with
          | true =>
            have htt : (true = true) := rfl
            rw [if_pos htt]
            exact ⟨.priceNoneAllowed, hcp⟩
          | false =>
            have hff2 : ¬(false = true) := by simp
            rw [if_neg hff2]
            exact ⟨.productRestricted, rfl⟩
        · rw [if_neg hplen]
          exact ⟨.priceNoneAllowed, hcp⟩
  obtain ⟨e, he⟩ := hval
  exact checkoutPOST_error env priceId userId code price e hpid huid hcust hprice hcode he

def c8env : CheckoutEnv :=
  ⟨fun co => if co = "SAVE" then some ⟨"SAVE", "coup_B", none⟩ else none,
   fun cp => if cp = "coup_B" then
       some ⟨some 500, none, some ⟨none, some []⟩⟩ else none,
   fun p => if p = "price_A" then some c7price else none, true, 100⟩

theorem c8_empty_price_list_rejects_witness :
    checkoutPOST c8env true "price_A" "user@example.com" "SAVE" = ⟨400, false, 0⟩ :=
  c8_empty_price_list_rejects c8env "price_A" "user@example.com" "SAVE" c7price
    ⟨"SAVE", "coup_B", none⟩ ⟨some 500, none, some ⟨none, some []⟩⟩ ⟨none, some []⟩
    (by decide) (by decide) rfl rfl (by decide) rfl rfl rfl rfl

/-!
## C10 — empty `applies_to.products` is treated as unrestricted
-/

def exceptIsOk : Except PromoError (String × Int) → Bool
  | .ok _ => true
  | .error _ => false

/-- C10: a coupon whose `applies_to.products` list is present but empty
passes the product check — validation proceeds exactly as for a coupon with
no product restriction at all (the two coupons validate identically for
every request) — in asymmetry with a present but empty `applies_to.prices`
list, under which validation never succeeds for any request. -/
theorem c10_empty_products_unrestricted (priceId productId : String)
    (price : PriceObj) (pc : PromoCode) (am : Option Int) (po : Option ℚ)
    (pr : Option (List String)) (prods : Option (List String)) :
    checkRestrictions priceId productId price pc ⟨am, po, some ⟨some [], pr⟩⟩
      = checkRestrictions priceId productId price pc ⟨am, po, some ⟨none, pr⟩⟩
    ∧ exceptIsOk (checkRestrictions priceId productId price pc
        ⟨am, po, some ⟨prods, some []⟩⟩) = false := by
  constructor
  · rfl
  · cases prods with
    | none => rfl
    | some ps =>
      cases ps with
      | nil => rfl
      | cons p ps' =>
        unfold checkRestrictions
        simp only []
        have hlen : 0 < (p :: ps').length := by simp
        rw [if_pos hlen]
        cases hc : (p :: ps').contains productId with
        | true =>
          have htt : (true = true) := rfl
          rw [if_pos htt]
          rfl
        | false =>
          have hff : ¬(false = true) := by simp
          rw [if_neg hff]
          rfl

/-!
## Subscription finalization model (`app/api/create-subscription/route.ts`)
-/

/-- Prefix test on character lists (empty pattern always matches). -/
def startsL : List Char → List Char → Bool
  | _, [] => true
  | [], _ :: _ => false
  | c :: cs, p :: ps => c == p && startsL cs ps

/-- Substring search on character lists. -/
def includesL : List Char → List Char → Bool
  | [], pat => startsL [] pat
  | c :: rest, pat => startsL (c :: rest) pat || includesL rest pat

/-- JavaScript `String.prototype.includes`. -/
def strIncludes (s pat : String) : Bool := includesL s.data pat.data

/-- The plan table of the finalization endpoint: a product name containing
`Standard` grants 500 credits, else one containing `Enterprise` grants 2000,
else the default 20 (the surrounding truthiness check makes the empty name
fall through to the default). -/
def planCredits (name : String) : Nat :=
  if name != "" && strIncludes name "Standard" then 500
  else if name != "" && strIncludes name "Enterprise" then 2000
  else 20

structure SetupIntentObj where
  status : String
  payment_method : String
  customer : String
deriving DecidableEq

structure PromoCodeInfo where
  promotionCode : String
  discountValue : String
  discountType : String
deriving DecidableEq

/-- Environment of the finalization endpoint: Stripe lookups plus the
subscription object `stripe.subscriptions.create` returns (`createOk = false`
when that call would throw). -/
structure CreateSubEnv where
  setupIntents : String → Option SetupIntentObj
  promoCodes : String → Option PromoCode
  prices : String → Option PriceObj
  products : String → Option ProductObj
  createOk : Bool
  newSubId : String
  newSubStatus : String
  newSubCreated : Int
  newSubPeriodStart : String
  newSubPeriodEnd : String

/-- The `subscriptionData` hash written for the user (promo-tracking fields
appended when `promoCodeInfo` was supplied). -/
def subDataFields (env : CreateSubEnv) (priceId : String)
    (info : Option PromoCodeInfo) : List (String × String) :=
  [("id", env.newSubId), ("stripeSubscriptionId", env.newSubId),
   ("status", env.newSubStatus),
   ("current_period_start", env.newSubPeriodStart),
   ("current_period_end", env.newSubPeriodEnd),
   ("priceId", priceId), ("created", toString env.newSubCreated)]
  ++ (match info with
      | some i =>
        [("promoCodeApplied", "true"), ("promoCodeValue", i.discountValue),
         ("promoCodeType", i.discountType)]
      | none => [])

structure ApiOut where
  status : Nat
  success : Bool
  subscriptionCreated : Bool
  couponApplied : Option String
  store : Store
  ops : List StoreOp

/-- Credit grant after the subscription write: retrieve price and product,
map the product name through the plan table, and write the credit record. -/
def finishCredits (env : CreateSubEnv) (userId priceId : String)
    (coupon : Option String) (nowMs : String) (s : Store) (ops : List StoreOp) :
    ApiOut :=
  match env.prices priceId with
  | none => ⟨500, false, true, coupon, s, ops⟩
  | some price =>
    match env.products price.product with
    | none => ⟨500, false, true, coupon, s, ops⟩
    | some product =>
      let credits := planCredits product.name
      if 0 < credits then
        ⟨200, true, true, coupon,
         s.hset (creditsKey userId)
           [("total", toString credits), ("available", toString credits),
            ("used", "0"), ("lastReset", nowMs)],
         ops ++ [.hset (creditsKey userId)]⟩
      else ⟨200, true, true, coupon, s, ops⟩

/-- The finalization `POST`: session check, required parameters, setup-intent
retrieval and precondition (status `succeeded` with an attached payment
method), promo-code lookup (affects only the created subscription and its
discounts), subscription creation, then the store writes: clear any
pre-existing subscription record, write the new one, and grant credits. -/
def createSubscriptionPOST (env : CreateSubEnv) (auth : Option String)
    (stripeConfigured : Bool) (setupIntentId priceId : String)
    (info : Option PromoCodeInfo) (nowMs : String) (s : Store) : ApiOut :=
  match auth with
  | none => ⟨401, false, false, none, s, []⟩
  | some userId =>
    if stripeConfigured = false then ⟨500, false, false, none, s, []⟩
    else if setupIntentId = "" ∨ priceId = "" then ⟨400, false, false, none, s, []⟩
    else
      match env.setupIntents setupIntentId with
      | none => ⟨500, false, false, none, s, []⟩
      | some si =>
        if si.status ≠ "succeeded" ∨ si.payment_method = "" then
          ⟨400, false, false, none, s, []⟩
        else
          let coupon :=
            match info with
            | some i =>
              if i.promotionCode ≠ "" then
                (env.promoCodes i.promotionCode).map (fun pc => pc.coupon)
              else none
            | none => none
          if env.createOk = false then ⟨500, false, false, coupon, s, []⟩
          else
            match s.hashes (subKey userId) with
            | some _ =>
              finishCredits env userId priceId coupon nowMs
                ((s.del (subKey userId)).hset (subKey userId)
                  (subDataFields env priceId info))
                [.hgetall (subKey userId), .del (subKey userId), .hset (subKey userId)]
            | none =>
              finishCredits env userId priceId coupon nowMs
                (s.hset (subKey userId) (subDataFields env priceId info))
                [.hgetall (subKey userId), .hset (subKey userId)]

theorem planCredits_pos (name : String) : 0 < planCredits name := by
  unfold planCredits
  split
  · simp
  · split <;> simp

theorem finishCredits_fields (env : CreateSubEnv) (uid pid : String)
    (coupon : Option String) (nowMs : String) (s : Store) (ops : List StoreOp)
    (pr : PriceObj) (prod : ProductObj)
    (hpr : env.prices pid = some pr) (hprod : env.products pr.product = some prod) :
    (finishCredits env uid pid coupon nowMs s ops).status = 200
    ∧ (finishCredits env uid pid coupon nowMs s ops).ops
        = ops ++ [.hset (creditsKey uid)]
    ∧ (finishCredits env uid pid coupon nowMs s ops).store
        = s.hset (creditsKey uid)
            [("total", toString (planCredits prod.name)),
             ("available", toString (planCredits prod.name)),
             ("used", "0"), ("lastReset", nowMs)] := by
  unfold finishCredits
  rw [hpr]
  simp only []
  rw [hprod]
  simp only []
  rw [if_pos (planCredits_pos prod.name)]
  exact ⟨rfl, rfl, rfl⟩

/-- C6: the credit total granted on subscription finalization is table
driven: a product name containing `Standard` grants 500, a name containing
`Enterprise` (and not `Standard`, which is checked first) grants 2000, and
any other name grants the default 20; and on the success path of the endpoint the
granted credit record always has `used="0"` and `total` equal to the table
amount for the name of the retrieved product. -/
theorem c6_plan_credit_table (name : String) :
    (strIncludes name "Standard" = true → planCredits name = 500)
    ∧ (strIncludes name "Standard" = false → strIncludes name "Enterprise" = true →
        planCredits name = 2000)
    ∧ (strIncludes name "Standard" = false → strIncludes name "Enterprise" = false →
        planCredits name = 20)
    ∧ (∀ (env : CreateSubEnv) (uid siid pid nowMs : String)
        (info : Option PromoCodeInfo) (s : Store) (si : SetupIntentObj)
        (pr : PriceObj) (prod : ProductObj),
        siid ≠ "" → pid ≠ "" → env.setupIntents siid = some si →
        si.status = "succeeded" → si.payment_method ≠ "" → env.createOk = true →
        env.prices pid = some pr → env.products pr.product = some prod →
        prod.name = name →
        getField (createSubscriptionPOST env (some uid) true siid pid info nowMs
            s).store (creditsKey uid) "used" = some "0"
        ∧ getField (createSubscriptionPOST env (some uid) true siid pid info nowMs
            s).store (creditsKey uid) "total" = some (toString (planCredits name))) := by
  refine ⟨?_, ?_, ?_, ?_⟩
  · intro hS
    have hne : (name != "") = true := by
      by_cases hn : name = ""
      · subst hn; exact absurd hS (by decide)
      · simpa using hn
    unfold planCredits
    rw [if_bool_true (((Bool.and_eq_true _ _).mpr ⟨hne, hS⟩))]
  · intro hS hE
    have hne : (name != "") = true := by
      by_cases hn : name = ""
      · subst hn; exact absurd hE (by decide)
      · simpa using hn
    have h1 : (name != "" && strIncludes name "Standard") = false := by
      rw [hS]; simp
    unfold planCredits
    rw [if_bool_false h1, if_bool_true (((Bool.and_eq_true _ _).mpr ⟨hne, hE⟩))]
  · intro hS hE
    have h1 : (name != "" && strIncludes name "Standard") = false := by
      rw [hS]; simp
    have h2 : (name != "" && strIncludes name "Enterprise") = false := by
      rw [hE]; simp
    unfold planCredits
    rw [if_bool_false h1, if_bool_false h2]
  · intro env uid siid pid nowMs info s si pr prod hsiid hpid hsi hst hpm hco hpr
      hprod hname
    subst hname
    have key : ∀ (cp : Option String) (s' : Store) (ops' : List StoreOp),
        getField (finishCredits env uid pid cp nowMs s' ops').store
            (creditsKey uid) "used" = some "0"
        ∧ getField (finishCredits env uid pid cp nowMs s' ops').store
            (creditsKey uid) "total" = some (toString (planCredits prod.name)) := by
      intro cp s' ops'
      obtain ⟨-, -, hstore⟩ :=
        finishCredits_fields env uid pid cp nowMs s' ops' pr prod hpr hprod
      rw [hstore]
      constructor
      · rw [getField_hset_same]; simp [lookupLast]
      · rw [getField_hset_same]; simp [lookupLast]
    unfold createSubscriptionPOST
    simp only []
    have h1 : ¬(true = false) := by simp
    rw [if_neg h1, if_neg (not_or.mpr ⟨hsiid, hpid⟩), hsi]
    simp only []
    rw [if_neg (not_or.mpr ⟨fun hh => hh hst, hpm⟩), hco, if_neg h1]
    cases hsub : s.hashes (subKey uid) with
    | some h => exact key _ _ _
    | none => exact key _ _ _

def csEnv : CreateSubEnv :=
  ⟨fun siid => if siid = "seti_1" then some ⟨"succeeded", "pm_1", "cus_1"⟩ else none,
   fun _ => none,
   fun p => if p = "price_A" then some ⟨some 1500, "prod_A", "month"⟩ else none,
   fun pr => if pr = "prod_A" then some ⟨"Standard Plan"⟩ else none,
   true, "sub_1", "active", 1760, "1000", "2000"⟩

theorem c6_plan_credit_table_witness :
    strIncludes "Standard Plan" "Standard" = true
    ∧ planCredits "Standard Plan" = 500
    ∧ getField (createSubscriptionPOST csEnv (some "u1") true "seti_1" "price_A"
        none "1760" emptyStore).store (creditsKey "u1") "used" = some "0" :=
  ⟨by decide,
   (c6_plan_credit_table "Standard Plan").1 (by decide),
   ((c6_plan_credit_table "Standard Plan").2.2.2 csEnv "u1" "seti_1" "price_A" "1760"
     none emptyStore ⟨"succeeded", "pm_1", "cus_1"⟩ ⟨some 1500, "prod_A", "month"⟩
     ⟨"Standard Plan"⟩ (by decide) (by decide) rfl rfl (by decide) rfl rfl rfl rfl).1⟩

/-!
## C9 — finalization precondition and clear-before-write
-/

/-- C9: (a) when the referenced setup intent is not in status `succeeded` or
has no attached payment method, the finalization endpoint answers 400,
creates no subscription, and performs no store operation; (b) on the success
path, a pre-existing subscription record is deleted before the new
subscription fields are written: the operation trace is exactly
`HGETALL`, `DEL`, `HSET` on the subscription key followed by `HSET` on the
credit key, and the stored subscription hash is rebuilt from scratch from
the new fields. -/
theorem c9_finalize_guard_and_clear (env : CreateSubEnv)
    (uid siid pid nowMs : String) (info : Option PromoCodeInfo) (s : Store)
    (si : SetupIntentObj)
    (hsiid : siid ≠ "") (hpid : pid ≠ "")
    (hsi : env.setupIntents siid = some si) :
    ((si.status ≠ "succeeded" ∨ si.payment_method = "") →
      createSubscriptionPOST env (some uid) true siid pid info nowMs s
        = ⟨400, false, false, none, s, []⟩)
    ∧ (∀ h pr prod, si.status = "succeeded" → si.payment_method ≠ "" →
        env.createOk = true → s.hashes (subKey uid) = some h →
        env.prices pid = some pr → env.products pr.product = some prod →
        (createSubscriptionPOST env (some uid) true siid pid info nowMs s).ops
          = [.hgetall (subKey uid), .del (subKey uid), .hset (subKey uid),
             .hset (creditsKey uid)]
        ∧ (createSubscriptionPOST env (some uid) true siid pid info nowMs
            s).store.hashes (subKey uid)
            = some (hsetFields [] (subDataFields env pid info))
        ∧ (createSubscriptionPOST env (some uid) true siid pid info nowMs
            s).status = 200) := by
  have h1 : ¬(true = false) := by simp
  constructor
  · intro hbad
    unfold createSubscriptionPOST
    simp only []
    rw [if_neg h1, if_neg (not_or.mpr ⟨hsiid, hpid⟩), hsi]
    simp only []
    rw [if_pos hbad]
  · intro h pr prod hst hpm hco hsub hpr hprod
    unfold createSubscriptionPOST
    simp only []
    rw [if_neg h1, if_neg (not_or.mpr ⟨hsiid, hpid⟩), hsi]
    simp only []
    rw [if_neg (not_or.mpr ⟨fun hh => hh hst, hpm⟩), hco, if_neg h1, hsub]
    obtain ⟨hs200, hops, hstore⟩ :=
      finishCredits_fields env uid pid
        (match info with
         | some i =>
           if i.promotionCode ≠ "" then
             (env.promoCodes i.promotionCode).map (fun pc => pc.coupon)
           else none
         | none => none)
        nowMs
        ((s.del (subKey uid)).hset (subKey uid) (subDataFields env pid info))
        [.hgetall (subKey uid), .del (subKey uid), .hset (subKey uid)]
        pr prod hpr hprod
    refine ⟨?_, ?_, ?_⟩
    · rw [hops]
      rfl
    · rw [hstore]
      rw [hset_hashes_other _ _ _ _ (subKey_ne_creditsKey uid)]
      rw [hset_hashes_same]
      simp [Store.del]
    · exact hs200

def csEnvBad : CreateSubEnv :=
  ⟨fun siid => if siid = "seti_2" then some ⟨"requires_action", "", "cus_1"⟩ else none,
   fun _ => none,
   fun p => if p = "price_A" then some ⟨some 1500, "prod_A", "month"⟩ else none,
   fun pr => if pr = "prod_A" then some ⟨"Standard Plan"⟩ else none,
   true, "sub_1", "active", 1760, "1000", "2000"⟩

theorem c9_finalize_guard_and_clear_witness :
    createSubscriptionPOST csEnvBad (some "u1") true "seti_2" "price_A" none "1760"
        emptyStore = ⟨400, false, false, none, emptyStore, []⟩
    ∧ (createSubscriptionPOST csEnv (some "user_42") true "seti_1" "price_A" none
        "1760" storeWithSubRecord).ops
      = [.hgetall (subKey "user_42"), .del (subKey "user_42"),
         .hset (subKey "user_42"), .hset (creditsKey "user_42")] :=
  ⟨(c9_finalize_guard_and_clear csEnvBad "u1" "seti_2" "price_A" "1760" none
      emptyStore ⟨"requires_action", "", "cus_1"⟩ (by decide) (by decide)
      (by decide)).1 (Or.inr rfl),
   ((c9_finalize_guard_and_clear csEnv "user_42" "seti_1" "price_A" "1760" none
      storeWithSubRecord ⟨"succeeded", "pm_1", "cus_1"⟩ (by decide) (by decide)
      (by decide)).2
      [("planType", "STANDARD"), ("status", "active"), ("amount", "15")]
      ⟨some 1500, "prod_A", "month"⟩ ⟨"Standard Plan"⟩ rfl (by decide) rfl
      (by decide) (by decide) (by decide)).1⟩
